import Mathlib

/-!
Shallow embedding of the ELF header parser (`src/main.rs`) and proofs about it.

Bytes are modelled as `Fin 256` (Rust `u8`) and a memory-mapped file as a
`List` of bytes. Rust's panicking index operation `self.file[i]` is modelled
by `Option`-valued reads: `none` means the Rust code panics (index out of
bounds), `some v` is a successful read. All integer arithmetic is on `Nat`,
mirroring the `as u16`/`as u32`/`as u64` widenings and `<<`/`|` operations
of the source, which cannot overflow their Rust types here because every
operand is a widened byte.
-/

abbrev Byte := Fin 256

abbrev Buffer := List Byte

/-- `const HEADER_MAGIC: [u8; 4] = [0x7f, 0x45, 0x4c, 0x46];` -/
def HEADER_MAGIC : Buffer := [0x7f, 0x45, 0x4c, 0x46]

def ELF64_ADDR_SIZE : Nat := 8

def ELF64_OFF_SIZE : Nat := 8

def ELF64_WORD_SIZE : Nat := 4

def ELF64_HALF_SIZE : Nat := 2

def E_TYPE_START_BYTE : Nat := 16

def E_TYPE_SIZE_BYTE : Nat := ELF64_HALF_SIZE

def E_MACHINE_START_BYTE : Nat := E_TYPE_START_BYTE + E_TYPE_SIZE_BYTE

def E_MACHINE_SIZE_BYTE : Nat := ELF64_HALF_SIZE

def E_VERSION_START_BYTE : Nat := E_MACHINE_START_BYTE + E_MACHINE_SIZE_BYTE

def E_VERSION_SIZE_BYTE : Nat := ELF64_WORD_SIZE

def E_ENTRY_START_BYTE : Nat := E_VERSION_START_BYTE + E_VERSION_SIZE_BYTE

def E_ENTRY_SIZE_BYTE : Nat := ELF64_ADDR_SIZE

def E_PHOFF_START_BYTE : Nat := E_ENTRY_START_BYTE + E_ENTRY_SIZE_BYTE

def E_PHOFF_SIZE_BYTE : Nat := ELF64_OFF_SIZE

def E_SHOFF_START_BYTE : Nat := E_PHOFF_START_BYTE + E_PHOFF_SIZE_BYTE

def E_SHOFF_SIZE_BYTE : Nat := ELF64_OFF_SIZE

def E_FLAGS_START_BYTE : Nat := E_SHOFF_START_BYTE + E_SHOFF_SIZE_BYTE

def E_FLAGS_SIZE_BYTE : Nat := ELF64_WORD_SIZE

def E_EHSIZE_START_BYTE : Nat := E_FLAGS_START_BYTE + E_FLAGS_SIZE_BYTE

def E_EHSIZE_SIZE_BYTE : Nat := ELF64_HALF_SIZE

def E_PHENTSIZE_START_BYTE : Nat := E_EHSIZE_START_BYTE + E_EHSIZE_SIZE_BYTE

def E_PHENTSIZE_SIZE_BYTE : Nat := ELF64_HALF_SIZE

def E_PHNUM_START_BYTE : Nat := E_PHENTSIZE_START_BYTE + E_PHENTSIZE_SIZE_BYTE

def E_PHNUM_SIZE_BYTE : Nat := ELF64_HALF_SIZE

def E_SHENTSIZE_START_BYTE : Nat := E_PHNUM_START_BYTE + E_PHNUM_SIZE_BYTE

def E_SHENTSIZE_SIZE_BYTE : Nat := ELF64_HALF_SIZE

def E_SHNUM_START_BYTE : Nat := E_SHENTSIZE_START_BYTE + E_SHENTSIZE_SIZE_BYTE

def E_SHNUM_SIZE_BYTE : Nat := ELF64_HALF_SIZE

def E_SHSTRNDX_START_BYTE : Nat := E_SHNUM_START_BYTE + E_SHNUM_SIZE_BYTE

/-- `enum ElfMachineType` of the source, with its discriminant values. -/
inductive ElfMachineType where
  | EmNone
  | EmSparc
  | Em386
  | EmSparc32PLUS
  | EmArm
  | EmAmd64
  | EmCuda
  | EmAmdGpu
  | EmRiscv
deriving DecidableEq

/-- `ElfMachineType::as_str`. -/
def ElfMachineType.as_str : ElfMachineType → String
  | .EmNone => "None"
  | .EmSparc => "SPARC"
  | .Em386 => "x86"
  | .EmSparc32PLUS => "SPARC 32+"
  | .EmArm => "ARM"
  | .EmAmd64 => "AMD64"
  | .EmCuda => "CUDA"
  | .EmAmdGpu => "AMD GPU"
  | .EmRiscv => "RISC-V"

/-- A single byte read `self.file[i]`: `none` models the Rust index panic. -/
def readU8 (buf : Buffer) (i : Nat) : Option Nat :=
  (buf.get? i).map Fin.val

/-- `Loader::is_elf`: `self.file[0..4] == HEADER_MAGIC`. Slicing `[0..4]`
panics (`none`) when the mapping is shorter than 4 bytes. -/
def is_elf (buf : Buffer) : Option Bool :=
  if 4 ≤ buf.length then some (decide (buf.take 4 = HEADER_MAGIC)) else none

/-- The match of `Loader::get_ei_class` on the class byte. -/
def class_label (b : Nat) : String :=
  match b with
  | 1 => "32bit architecture"
  | 2 => "64bit architecture"
  | _ => "Invalid class"

/-- `Loader::get_ei_class`: the match on `self.file[4]`. -/
def get_ei_class (buf : Buffer) : Option String :=
  (readU8 buf 4).map class_label

/-- The match of `Loader::get_ei_data` on the data-encoding byte. -/
def data_label (b : Nat) : String :=
  match b with
  | 1 => "Little endian"
  | 2 => "Big endian"
  | _ => "Invalid data"

/-- `Loader::get_ei_data`: the match on `self.file[5]`. -/
def get_ei_data (buf : Buffer) : Option String :=
  (readU8 buf 5).map data_label

/-- `Loader::get_ei_version`: `self.file[6]`. -/
def get_ei_version (buf : Buffer) : Option Nat :=
  readU8 buf 6

/-- The match of `Loader::get_e_type` on the reconstructed 16-bit value. -/
def e_type_str (v : Nat) : String :=
  match v with
  | 0 => "No file type"
  | 1 => "Relocatable file"
  | 2 => "Executable file"
  | 3 => "Shared object file"
  | 4 => "Core file"
  | 0xfe00 | 0xfeff => "Operating system-specific"
  | 0xff00 | 0xffff => "Processor-specific"
  | _ => "Invalid type"

/-- `Loader::get_e_type`:
`(file[17] as u16) << 8 | (file[16] as u16)`, then the eight-way match. -/
def get_e_type (buf : Buffer) : Option String := do
  let hi ← readU8 buf (E_TYPE_START_BYTE + 1)
  let lo ← readU8 buf E_TYPE_START_BYTE
  pure (e_type_str (hi <<< 8 ||| lo))

/-- The match of `Loader::get_e_machine` on the reconstructed 16-bit value:
a partial catalog, every unlisted code maps to `None`. -/
def machine_lookup (v : Nat) : Option String :=
  match v with
  | 0 => some ElfMachineType.EmNone.as_str
  | 2 => some ElfMachineType.EmSparc.as_str
  | 3 => some ElfMachineType.Em386.as_str
  | 18 => some ElfMachineType.EmSparc32PLUS.as_str
  | 40 => some ElfMachineType.EmArm.as_str
  | 62 => some ElfMachineType.EmAmd64.as_str
  | 190 => some ElfMachineType.EmCuda.as_str
  | 224 => some ElfMachineType.EmAmdGpu.as_str
  | 243 => some ElfMachineType.EmRiscv.as_str
  | _ => none

/-- `Loader::get_e_machine`: outer `Option` is the panic monad, inner
`Option` is the `Option<&str>` of the source. -/
def get_e_machine (buf : Buffer) : Option (Option String) := do
  let hi ← readU8 buf (E_MACHINE_START_BYTE + 1)
  let lo ← readU8 buf E_MACHINE_START_BYTE
  pure (machine_lookup (hi <<< 8 ||| lo))

/-- `Loader::get_e_version`: note the source reconstructs only FOUR bytes
(offsets 23,22,21,20) into its `u64` result. -/
def get_e_version (buf : Buffer) : Option Nat := do
  let b3 ← readU8 buf (E_VERSION_START_BYTE + 3)
  let b2 ← readU8 buf (E_VERSION_START_BYTE + 2)
  let b1 ← readU8 buf (E_VERSION_START_BYTE + 1)
  let b0 ← readU8 buf E_VERSION_START_BYTE
  pure (b3 <<< 24 ||| b2 <<< 16 ||| b1 <<< 8 ||| b0)

/-- `Loader::get_e_entry`: only bytes 24..=27 contribute, though the field
occupies bytes 24..=31. -/
def get_e_entry (buf : Buffer) : Option Nat := do
  let b3 ← readU8 buf (E_ENTRY_START_BYTE + 3)
  let b2 ← readU8 buf (E_ENTRY_START_BYTE + 2)
  let b1 ← readU8 buf (E_ENTRY_START_BYTE + 1)
  let b0 ← readU8 buf E_ENTRY_START_BYTE
  pure (b3 <<< 24 ||| b2 <<< 16 ||| b1 <<< 8 ||| b0)

/-- `Loader::get_e_phoff`: only bytes 32..=35 contribute, though the field
occupies bytes 32..=39. -/
def get_e_phoff (buf : Buffer) : Option Nat := do
  let b3 ← readU8 buf (E_PHOFF_START_BYTE + 3)
  let b2 ← readU8 buf (E_PHOFF_START_BYTE + 2)
  let b1 ← readU8 buf (E_PHOFF_START_BYTE + 1)
  let b0 ← readU8 buf E_PHOFF_START_BYTE
  pure (b3 <<< 24 ||| b2 <<< 16 ||| b1 <<< 8 ||| b0)

/-- `Loader::get_e_shoff`: only bytes 40..=43 contribute, though the field
occupies bytes 40..=47. -/
def get_e_shoff (buf : Buffer) : Option Nat := do
  let b3 ← readU8 buf (E_SHOFF_START_BYTE + 3)
  let b2 ← readU8 buf (E_SHOFF_START_BYTE + 2)
  let b1 ← readU8 buf (E_SHOFF_START_BYTE + 1)
  let b0 ← readU8 buf E_SHOFF_START_BYTE
  pure (b3 <<< 24 ||| b2 <<< 16 ||| b1 <<< 8 ||| b0)

/-- `Loader::get_e_flags`: four little-endian bytes at 48..=51. -/
def get_e_flags (buf : Buffer) : Option Nat := do
  let b3 ← readU8 buf (E_FLAGS_START_BYTE + 3)
  let b2 ← readU8 buf (E_FLAGS_START_BYTE + 2)
  let b1 ← readU8 buf (E_FLAGS_START_BYTE + 1)
  let b0 ← readU8 buf E_FLAGS_START_BYTE
  pure (b3 <<< 24 ||| b2 <<< 16 ||| b1 <<< 8 ||| b0)

/-- `Loader::get_e_ehsize`. -/
def get_e_ehsize (buf : Buffer) : Option Nat := do
  let b1 ← readU8 buf (E_EHSIZE_START_BYTE + 1)
  let b0 ← readU8 buf E_EHSIZE_START_BYTE
  pure (b1 <<< 8 ||| b0)

/-- `Loader::get_e_phentsize`. -/
def get_e_phentsize (buf : Buffer) : Option Nat := do
  let b1 ← readU8 buf (E_PHENTSIZE_START_BYTE + 1)
  let b0 ← readU8 buf E_PHENTSIZE_START_BYTE
  pure (b1 <<< 8 ||| b0)

/-- `Loader::get_e_phnum`. -/
def get_e_phnum (buf : Buffer) : Option Nat := do
  let b1 ← readU8 buf (E_PHNUM_START_BYTE + 1)
  let b0 ← readU8 buf E_PHNUM_START_BYTE
  pure (b1 <<< 8 ||| b0)

/-- `Loader::get_e_shentsize`. -/
def get_e_shentsize (buf : Buffer) : Option Nat := do
  let b1 ← readU8 buf (E_SHENTSIZE_START_BYTE + 1)
  let b0 ← readU8 buf E_SHENTSIZE_START_BYTE
  pure (b1 <<< 8 ||| b0)

/-- `Loader::get_e_shnum`. -/
def get_e_shnum (buf : Buffer) : Option Nat := do
  let b1 ← readU8 buf (E_SHNUM_START_BYTE + 1)
  let b0 ← readU8 buf E_SHNUM_START_BYTE
  pure (b1 <<< 8 ||| b0)

/-- `Loader::get_e_shstrndx`. -/
def get_e_shstrndx (buf : Buffer) : Option Nat := do
  let b1 ← readU8 buf (E_SHSTRNDX_START_BYTE + 1)
  let b0 ← readU8 buf E_SHSTRNDX_START_BYTE
  pure (b1 <<< 8 ||| b0)

/-- The record of values `main` extracts for one ELF file, in the field
order of the pushes into `results` (strings for the symbolically decoded
fields, numbers for the raw ones, `Option` for the partial machine lookup). -/
structure DecodedHeader where
  ei_class : String
  ei_data : String
  ei_version : Nat
  e_type : String
  e_machine : Option String
  e_version : Nat
  e_entry : Nat
  e_phoff : Nat
  e_shoff : Nat
  e_flags : Nat
  e_ehsize : Nat
  e_phentsize : Nat
  e_phnum : Nat
  e_shentsize : Nat
  e_shnum : Nat
  e_shstrndx : Nat
deriving DecidableEq, Repr

/-- The sixteen getter calls `main` performs on one loader, in source
order; `none` when any byte access is out of bounds (a Rust panic). -/
def decodeFields (buf : Buffer) : Option DecodedHeader :=
  match get_ei_class buf, get_ei_data buf, get_ei_version buf, get_e_type buf,
    get_e_machine buf, get_e_version buf, get_e_entry buf, get_e_phoff buf,
    get_e_shoff buf, get_e_flags buf, get_e_ehsize buf, get_e_phentsize buf,
    get_e_phnum buf, get_e_shentsize buf, get_e_shnum buf, get_e_shstrndx buf with
  | some c, some d, some iv, some t, some m, some v, some en, some ph, some sh,
    some fl, some eh, some pe, some pn, some se, some sn, some sx =>
    some ⟨c, d, iv, t, m, v, en, ph, sh, fl, eh, pe, pn, se, sn, sx⟩
  | _, _, _, _, _, _, _, _, _, _, _, _, _, _, _, _ => none

/-- The fate of a single readable input file in `main`: filtered out as
non-ELF, decoded to a header, or a panic during `is_elf` or a getter. -/
inductive DecodeOutcome where
  | panic
  | notElf
  | ok (h : DecodedHeader)
deriving DecidableEq

/-- Per-file control flow of `main`: `is_elf` decides whether the file is
retained (a panic in the magic check aborts); retained files go through the
sixteen getters. -/
def decodeFile (buf : Buffer) : DecodeOutcome :=
  match is_elf buf with
  | none => .panic
  | some false => .notElf
  | some true =>
    match decodeFields buf with
    | none => .panic
    | some h => .ok h

/-! ### Little-endian reconstruction arithmetic -/

/-- Bitwise-or of a multiple of `2 ^ n` with a number below `2 ^ n` is addition. -/
theorem lor_eq_add (x y n : Nat) (hx : 2 ^ n ∣ x) (hy : y < 2 ^ n) :
    x ||| y = x + y := by
  obtain ⟨a, rfl⟩ := hx
  exact (Nat.mul_add_lt_is_or hy a).symm

/-- The two-byte reconstruction `b1 << 8 | b0` is positional notation. -/
theorem recon2 (b1 b0 : Nat) (h0 : b0 < 256) :
    b1 <<< 8 ||| b0 = b1 * 256 + b0 := by
  rw [Nat.shiftLeft_eq, lor_eq_add _ _ 8 ⟨b1, by ring⟩ h0]

/-- The four-byte reconstruction used by the 32- and (truncated) 64-bit getters. -/
theorem recon4 (b3 b2 b1 b0 : Nat) (h2 : b2 < 256) (h1 : b1 < 256) (h0 : b0 < 256) :
    b3 <<< 24 ||| b2 <<< 16 ||| b1 <<< 8 ||| b0 =
      ((b3 * 256 + b2) * 256 + b1) * 256 + b0 := by
  rw [Nat.shiftLeft_eq, Nat.shiftLeft_eq, Nat.shiftLeft_eq,
    lor_eq_add (b3 * 2 ^ 24) (b2 * 2 ^ 16) 24 ⟨b3, by ring⟩ (by omega),
    lor_eq_add _ (b1 * 2 ^ 8) 16 ⟨b3 * 256 + b2, by ring⟩ (by omega),
    lor_eq_add _ b0 8 ⟨b3 * 65536 + b2 * 256 + b1, by ring⟩ h0]
  ring

/-- Decoding the two little-endian bytes written for a 16-bit value recovers it. -/
theorem recon2_bytes (v : Nat) (hv : v < 2 ^ 16) :
    (v >>> 8 % 256) <<< 8 ||| v % 256 = v := by
  rw [recon2 _ _ (by omega), Nat.shiftRight_eq_div_pow]
  omega

/-- Decoding the four low little-endian bytes written for a value below `2 ^ 32`
recovers it. -/
theorem recon4_bytes (v : Nat) (hv : v < 2 ^ 32) :
    (v >>> 24 % 256) <<< 24 ||| (v >>> 16 % 256) <<< 16 |||
      (v >>> 8 % 256) <<< 8 ||| v % 256 = v := by
  rw [recon4 _ _ _ _ (by omega) (by omega) (by omega),
    Nat.shiftRight_eq_div_pow, Nat.shiftRight_eq_div_pow, Nat.shiftRight_eq_div_pow]
  omega

/-! ### Spec-side definitions, for the claims that compare the code with the
declared layout and enumerations -/

/-- The eight-way object-type enumeration of the spec's data model. -/
inductive ObjType where
  | None
  | Relocatable
  | Executable
  | Shared
  | Core
  | OsSpecific
  | ProcSpecific
  | Invalid
deriving DecidableEq

/-- Modelled from the spec: the object-type resolution table of section 3,
`0xFE00`/`0xFEFF` operating-system-specific, `0xFF00`/`0xFFFF`
processor-specific, every other unmapped value `Invalid`. -/
def specObjectType (v : Nat) : ObjType :=
  match v with
  | 0 => .None
  | 1 => .Relocatable
  | 2 => .Executable
  | 3 => .Shared
  | 4 => .Core
  | 0xfe00 | 0xfeff => .OsSpecific
  | 0xff00 | 0xffff => .ProcSpecific
  | _ => .Invalid

/-- The display label the code uses for each spec-level object type. -/
def objTypeLabel : ObjType → String
  | .None => "No file type"
  | .Relocatable => "Relocatable file"
  | .Executable => "Executable file"
  | .Shared => "Shared object file"
  | .Core => "Core file"
  | .OsSpecific => "Operating system-specific"
  | .ProcSpecific => "Processor-specific"
  | .Invalid => "Invalid type"

/-- The code's object-type match agrees with the spec's enumeration at every
16-bit (indeed every natural) value. -/
theorem e_type_str_eq_spec (v : Nat) : e_type_str v = objTypeLabel (specObjectType v) := by
  unfold e_type_str specObjectType
  split <;> rfl

/-- The machine codes present in the source's catalog. -/
def catalogCodes : List Nat := [0, 2, 3, 18, 40, 62, 190, 224, 243]

/-- Modelled from the spec: the full 64-bit little-endian integer formed from
the eight bytes starting at `off` (the layout the spec declares for the two
offset fields). -/
def specLe64 (buf : Buffer) (off : Nat) : Option Nat := do
  let b0 ← readU8 buf off
  let b1 ← readU8 buf (off + 1)
  let b2 ← readU8 buf (off + 2)
  let b3 ← readU8 buf (off + 3)
  let b4 ← readU8 buf (off + 4)
  let b5 ← readU8 buf (off + 5)
  let b6 ← readU8 buf (off + 6)
  let b7 ← readU8 buf (off + 7)
  pure ((((((((b7 * 256 + b6) * 256 + b5) * 256 + b4) * 256 + b3) * 256 + b2)
    * 256 + b1) * 256) + b0)

/-! ### An encoder for the declared field layout (round-trip claim) -/

/-- The low byte of a value. -/
def byteOf (v : Nat) : Byte :=
  ⟨v % 256, Nat.mod_lt _ (by norm_num)⟩

/-- Two little-endian bytes of a 16-bit value. -/
def bytes2 (v : Nat) : Buffer := [byteOf v, byteOf (v >>> 8)]

/-- Four little-endian bytes of a 32-bit value. -/
def bytes4 (v : Nat) : Buffer :=
  [byteOf v, byteOf (v >>> 8), byteOf (v >>> 16), byteOf (v >>> 24)]

/-- Eight little-endian bytes of a 64-bit value. -/
def bytes8 (v : Nat) : Buffer :=
  bytes4 v ++ [byteOf (v >>> 32), byteOf (v >>> 40), byteOf (v >>> 48), byteOf (v >>> 56)]

/-- The canonical class byte for a class label, when one exists. -/
def classCode (s : String) : Option Byte :=
  match s with
  | "32bit architecture" => some 1
  | "64bit architecture" => some 2
  | "Invalid class" => some 0
  | _ => none

/-- The canonical data-encoding byte for a data label, when one exists. -/
def dataCode (s : String) : Option Byte :=
  match s with
  | "Little endian" => some 1
  | "Big endian" => some 2
  | "Invalid data" => some 0
  | _ => none

/-- The canonical 16-bit object-type value for a type label, when one exists. -/
def typeCode (s : String) : Option Nat :=
  match s with
  | "No file type" => some 0
  | "Relocatable file" => some 1
  | "Executable file" => some 2
  | "Shared object file" => some 3
  | "Core file" => some 4
  | "Operating system-specific" => some 0xfe00
  | "Processor-specific" => some 0xff00
  | "Invalid type" => some 5
  | _ => none

/-- The canonical 16-bit machine code for a machine field: an absent machine
encodes as `0xffff` (a code outside the catalog), a label as its catalog
code. -/
def machCode (m : Option String) : Option Nat :=
  match m with
  | none => some 0xffff
  | some "None" => some 0
  | some "SPARC" => some 2
  | some "x86" => some 3
  | some "SPARC 32+" => some 18
  | some "ARM" => some 40
  | some "AMD64" => some 62
  | some "CUDA" => some 190
  | some "AMD GPU" => some 224
  | some "RISC-V" => some 243
  | some _ => none

/-- A 64-byte buffer laid out per the spec's field table: magic at 0..3,
class/data/version bytes at 4..6, padding to 15, then every multi-byte field
little-endian at its declared offset and width (type 16, machine 18,
version 20, entry 24, phoff 32, shoff 40, flags 48, then the six 16-bit
fields from 52). -/
def canonicalBuf (cb db : Byte) (vb typ mach vver vent vph vsh vfl veh vpe vpn vse vsn vsx : Nat) : Buffer :=
  [0x7f, 0x45, 0x4c, 0x46, cb, db, byteOf vb, 0, 0, 0, 0, 0, 0, 0, 0, 0,
    byteOf typ, byteOf (typ >>> 8), byteOf mach, byteOf (mach >>> 8),
    byteOf vver, byteOf (vver >>> 8), byteOf (vver >>> 16), byteOf (vver >>> 24),
    byteOf vent, byteOf (vent >>> 8), byteOf (vent >>> 16), byteOf (vent >>> 24),
    byteOf (vent >>> 32), byteOf (vent >>> 40), byteOf (vent >>> 48), byteOf (vent >>> 56),
    byteOf vph, byteOf (vph >>> 8), byteOf (vph >>> 16), byteOf (vph >>> 24),
    byteOf (vph >>> 32), byteOf (vph >>> 40), byteOf (vph >>> 48), byteOf (vph >>> 56),
    byteOf vsh, byteOf (vsh >>> 8), byteOf (vsh >>> 16), byteOf (vsh >>> 24),
    byteOf (vsh >>> 32), byteOf (vsh >>> 40), byteOf (vsh >>> 48), byteOf (vsh >>> 56),
    byteOf vfl, byteOf (vfl >>> 8), byteOf (vfl >>> 16), byteOf (vfl >>> 24),
    byteOf veh, byteOf (veh >>> 8), byteOf vpe, byteOf (vpe >>> 8),
    byteOf vpn, byteOf (vpn >>> 8), byteOf vse, byteOf (vse >>> 8),
    byteOf vsn, byteOf (vsn >>> 8), byteOf vsx, byteOf (vsx >>> 8)]

/-- Encoding a `DecodedHeader` into a 64-byte buffer at the declared offsets,
widths, and little-endian byte order; `none` when a symbolic label is not one
the decoder can produce. -/
def encodeHeader (h : DecodedHeader) : Option Buffer := do
  let cls ← classCode h.ei_class
  let dat ← dataCode h.ei_data
  let typ ← typeCode h.e_type
  let mach ← machCode h.e_machine
  pure (canonicalBuf cls dat h.ei_version typ mach h.e_version h.e_entry
    h.e_phoff h.e_shoff h.e_flags h.e_ehsize h.e_phentsize h.e_phnum
    h.e_shentsize h.e_shnum h.e_shstrndx)

/-- `classCode` is a right inverse of the code's class match. -/
theorem classCode_inv {s : String} {b : Byte} (h : classCode s = some b) :
    class_label b.val = s := by
  unfold classCode at h
  split at h <;> first
    | exact Option.noConfusion h
    | (injection h with h; subst h; decide)

/-- `dataCode` is a right inverse of the code's data match. -/
theorem dataCode_inv {s : String} {b : Byte} (h : dataCode s = some b) :
    data_label b.val = s := by
  unfold dataCode at h
  split at h <;> first
    | exact Option.noConfusion h
    | (injection h with h; subst h; decide)

/-- `typeCode` is a right inverse of the code's object-type match, and its
codes are 16-bit. -/
theorem typeCode_inv {s : String} {v : Nat} (h : typeCode s = some v) :
    e_type_str v = s ∧ v < 2 ^ 16 := by
  unfold typeCode at h
  split at h <;> first
    | exact Option.noConfusion h
    | (injection h with h; subst h; decide)

/-- `machCode` is a right inverse of the code's machine catalog, and its
codes are 16-bit. -/
theorem machCode_inv {m : Option String} {v : Nat} (h : machCode m = some v) :
    machine_lookup v = m ∧ v < 2 ^ 16 := by
  unfold machCode at h
  split at h <;> first
    | exact Option.noConfusion h
    | (injection h with h; subst h; decide)

section CanonicalDecode

variable (cb db : Byte) (vb typ mach vver vent vph vsh vfl veh vpe vpn vse vsn vsx : Nat)

set_option maxHeartbeats 2000000 in
/-- A canonically laid-out buffer carries the magic, so the signature check
accepts it. -/
theorem is_elf_canonical :
    is_elf (canonicalBuf cb db vb typ mach vver vent vph vsh vfl veh vpe vpn vse vsn vsx) =
      some true := rfl

set_option maxHeartbeats 4000000 in
/-- Running the sixteen getters over a canonically encoded buffer recovers
every encoded value that fits its declared read width. -/
theorem decodeFields_canonical (ht : typ < 2 ^ 16) (hm : mach < 2 ^ 16)
    (h1 : vver < 2 ^ 32) (h2 : vent < 2 ^ 32) (h3 : vph < 2 ^ 32)
    (h4 : vsh < 2 ^ 32) (h5 : vfl < 2 ^ 32) (h6 : veh < 2 ^ 16)
    (h7 : vpe < 2 ^ 16) (h8 : vpn < 2 ^ 16) (h9 : vse < 2 ^ 16)
    (h10 : vsn < 2 ^ 16) (h11 : vsx < 2 ^ 16) :
    decodeFields (canonicalBuf cb db vb typ mach vver vent vph vsh vfl veh vpe vpn vse vsn vsx) =
      some ⟨class_label cb.val, data_label db.val, vb % 256, e_type_str typ,
        machine_lookup mach, vver, vent, vph, vsh, vfl, veh, vpe, vpn, vse, vsn, vsx⟩ := by
  have base :
      decodeFields (canonicalBuf cb db vb typ mach vver vent vph vsh vfl veh vpe vpn vse vsn vsx) =
        some ⟨class_label cb.val, data_label db.val, vb % 256,
          e_type_str ((typ >>> 8 % 256) <<< 8 ||| typ % 256),
          machine_lookup ((mach >>> 8 % 256) <<< 8 ||| mach % 256),
          (vver >>> 24 % 256) <<< 24 ||| (vver >>> 16 % 256) <<< 16 |||
            (vver >>> 8 % 256) <<< 8 ||| vver % 256,
          (vent >>> 24 % 256) <<< 24 ||| (vent >>> 16 % 256) <<< 16 |||
            (vent >>> 8 % 256) <<< 8 ||| vent % 256,
          (vph >>> 24 % 256) <<< 24 ||| (vph >>> 16 % 256) <<< 16 |||
            (vph >>> 8 % 256) <<< 8 ||| vph % 256,
          (vsh >>> 24 % 256) <<< 24 ||| (vsh >>> 16 % 256) <<< 16 |||
            (vsh >>> 8 % 256) <<< 8 ||| vsh % 256,
          (vfl >>> 24 % 256) <<< 24 ||| (vfl >>> 16 % 256) <<< 16 |||
            (vfl >>> 8 % 256) <<< 8 ||| vfl % 256,
          (veh >>> 8 % 256) <<< 8 ||| veh % 256,
          (vpe >>> 8 % 256) <<< 8 ||| vpe % 256,
          (vpn >>> 8 % 256) <<< 8 ||| vpn % 256,
          (vse >>> 8 % 256) <<< 8 ||| vse % 256,
          (vsn >>> 8 % 256) <<< 8 ||| vsn % 256,
          (vsx >>> 8 % 256) <<< 8 ||| vsx % 256⟩ := rfl
  rw [base, recon2_bytes typ ht, recon2_bytes mach hm, recon4_bytes vver h1,
    recon4_bytes vent h2, recon4_bytes vph h3, recon4_bytes vsh h4,
    recon4_bytes vfl h5, recon2_bytes veh h6, recon2_bytes vpe h7,
    recon2_bytes vpn h8, recon2_bytes vse h9, recon2_bytes vsn h10,
    recon2_bytes vsx h11]

end CanonicalDecode

/-! ### C5: signature check -/

/-- C5: a buffer of at least 4 bytes whose first 4 bytes are not the magic
`7F 45 4C 46` is rejected as not an ELF file, whatever the remaining bytes
hold, and no header field is decoded for it. -/
theorem C5_signature_rejected (buf : Buffer) (h4 : 4 ≤ buf.length)
    (hm : buf.take 4 ≠ HEADER_MAGIC) : decodeFile buf = DecodeOutcome.notElf := by
  unfold decodeFile is_elf
  rw [if_pos h4, decide_eq_false hm]

/-- C5 witness: an 8-byte zero buffer is rejected by the signature check. -/
theorem C5_signature_rejected_witness :
    decodeFile (List.replicate 8 (0 : Byte)) = DecodeOutcome.notElf :=
  C5_signature_rejected _ (by decide) (by decide)

/-! ### C9: object-type decoding -/

/-- C9: for every buffer of at least 64 bytes, the 16-bit little-endian
value at bytes 16..17 resolves through the spec's eight-way object-type
enumeration (0 none, 1 relocatable, 2 executable, 3 shared, 4 core,
0xFE00/0xFEFF OS-specific, 0xFF00/0xFFFF processor-specific, otherwise
invalid), and the getter never fails on such a buffer. -/
theorem C9_object_type_decoding (buf : Buffer) (h64 : 64 ≤ buf.length) :
    get_e_type buf = some (objTypeLabel (specObjectType
      ((buf.get ⟨17, by omega⟩).val * 256 + (buf.get ⟨16, by omega⟩).val))) := by
  have hhi : buf.get? 17 = some (buf.get ⟨17, by omega⟩) := List.get?_eq_get (by omega)
  have hlo : buf.get? 16 = some (buf.get ⟨16, by omega⟩) := List.get?_eq_get (by omega)
  simp only [get_e_type, readU8, E_TYPE_START_BYTE, Nat.reduceAdd, hhi, hlo,
    Option.map_some', Option.pure_def, Option.bind_eq_bind, Option.some_bind]
  rw [recon2 _ _ (Fin.is_lt _), e_type_str_eq_spec]

/-- C9 witness: a concrete 64-byte buffer with object-type bytes `02 00`
decodes to the executable label. -/
theorem C9_object_type_decoding_witness :
    get_e_type (List.replicate 16 (0 : Byte) ++ [2] ++ List.replicate 47 (0 : Byte)) =
      some (objTypeLabel (specObjectType 2)) := by
  have := C9_object_type_decoding
    (List.replicate 16 (0 : Byte) ++ [2] ++ List.replicate 47 (0 : Byte)) (by decide)
  simpa using this

/-! ### C8: partial machine catalog -/

/-- C8: every catalog code resolves to its architecture label (62 to AMD64);
every code outside the catalog resolves to `none` — absent, not an error and
never an "Unknown" label — and the getter returns the lookup result for the
16-bit little-endian value at bytes 18..19. -/
theorem C8_machine_partial_catalog :
    machine_lookup 62 = some "AMD64" ∧
    (∀ v ∈ catalogCodes, ∃ s, machine_lookup v = some s) ∧
    (∀ v, v ∉ catalogCodes → machine_lookup v = none) ∧
    (∀ v s, machine_lookup v = some s → s ≠ "Unknown") ∧
    (∀ (buf : Buffer) (lo hi : Byte), buf.get? 18 = some lo → buf.get? 19 = some hi →
      get_e_machine buf = some (machine_lookup (hi.val * 256 + lo.val))) := by
  refine ⟨rfl, ?_, ?_, ?_, ?_⟩
  · intro v hv
    fin_cases hv <;> exact ⟨_, rfl⟩
  · intro v hv
    unfold machine_lookup
    split <;> first
      | rfl
      | exact absurd (by decide) hv
  · intro v s h hs
    subst hs
    unfold machine_lookup at h
    split at h <;> first
      | exact Option.noConfusion h
      | (injection h with h; exact absurd h (by decide))
  · intro buf lo hi hlo hhi
    simp only [get_e_machine, readU8, E_MACHINE_START_BYTE, E_TYPE_START_BYTE,
      E_TYPE_SIZE_BYTE, ELF64_HALF_SIZE, Nat.reduceAdd, hlo, hhi,
      Option.map_some', Option.pure_def, Option.bind_eq_bind, Option.some_bind]
    rw [recon2 _ _ (Fin.is_lt _)]

/-- C8 witness: code 7 is outside the catalog and resolves to absent, code
62 resolves to the AMD64 label. -/
theorem C8_machine_partial_catalog_witness :
    machine_lookup 7 = none ∧ machine_lookup 62 = some "AMD64" :=
  ⟨C8_machine_partial_catalog.2.2.1 7 (by decide), C8_machine_partial_catalog.1⟩

/-! ### C1: the data-encoding byte is ignored -/

/-- A 64-byte little-endian header: data-encoding byte 1, entry-point field
bytes 24..31 holding 0x04030201 in little-endian order. -/
def c1BufLE : Buffer :=
  [0x7f, 0x45, 0x4c, 0x46, 2, 1, 1, 0, 0, 0, 0, 0, 0, 0, 0, 0,
   0, 0, 0, 0, 0, 0, 0, 0, 0x01, 0x02, 0x03, 0x04, 0, 0, 0, 0,
   0, 0, 0, 0, 0, 0, 0, 0, 0, 0, 0, 0, 0, 0, 0, 0,
   0, 0, 0, 0, 0, 0, 0, 0, 0, 0, 0, 0, 0, 0, 0, 0]

/-- The same logical header in big-endian form: data-encoding byte 2, every
multi-byte field's bytes order-swapped (the entry-point field becomes
`00 00 00 00 04 03 02 01`; every other multi-byte field is zero, hence
unchanged by swapping). -/
def c1BufBE : Buffer :=
  [0x7f, 0x45, 0x4c, 0x46, 2, 2, 1, 0, 0, 0, 0, 0, 0, 0, 0, 0,
   0, 0, 0, 0, 0, 0, 0, 0, 0, 0, 0, 0, 0x04, 0x03, 0x02, 0x01,
   0, 0, 0, 0, 0, 0, 0, 0, 0, 0, 0, 0, 0, 0, 0, 0,
   0, 0, 0, 0, 0, 0, 0, 0, 0, 0, 0, 0, 0, 0, 0, 0]

/-- C1: the two buffers are identical except for the data-encoding byte and
the byte-swapped entry field, yet the code decodes their entry points to
different values (0x04030201 versus 0): every getter reconstructs
little-endian unconditionally, never branching on byte 5. -/
theorem C1_endianness_ignored :
    c1BufLE.take 5 = c1BufBE.take 5 ∧
    get_ei_data c1BufLE = some "Little endian" ∧
    get_ei_data c1BufBE = some "Big endian" ∧
    (c1BufLE.drop 6).take 18 = (c1BufBE.drop 6).take 18 ∧
    (c1BufLE.drop 24).take 8 = ((c1BufBE.drop 24).take 8).reverse ∧
    c1BufLE.drop 32 = c1BufBE.drop 32 ∧
    get_e_entry c1BufLE = some 0x04030201 ∧
    get_e_entry c1BufBE = some 0 := by
  decide

/-! ### C4: the 64-bit offset fields are truncated to 32 bits -/

/-- A 64-byte buffer whose program-header-offset field (bytes 32..39) and
section-header-offset field (bytes 40..47) each hold 2^32 = `00 00 00 00 01
00 00 00` little-endian. -/
def c4Buf : Buffer :=
  [0x7f, 0x45, 0x4c, 0x46, 2, 1, 1, 0, 0, 0, 0, 0, 0, 0, 0, 0,
   0, 0, 0, 0, 0, 0, 0, 0, 0, 0, 0, 0, 0, 0, 0, 0,
   0, 0, 0, 0, 1, 0, 0, 0, 0, 0, 0, 0, 1, 0, 0, 0,
   0, 0, 0, 0, 0, 0, 0, 0, 0, 0, 0, 0, 0, 0, 0, 0]

/-- C4: the full 64-bit little-endian values of bytes 32..39 and 40..47 are
2^32, but the getters reconstruct only the four low bytes and return 0: the
fifth through eighth source bytes never contribute. -/
theorem C4_offset_fields_truncated :
    specLe64 c4Buf 32 = some 4294967296 ∧
    get_e_phoff c4Buf = some 0 ∧
    specLe64 c4Buf 40 = some 4294967296 ∧
    get_e_shoff c4Buf = some 0 := by
  decide

/-! ### C2: buffers shorter than 64 bytes -/

/-- The last getter in `main`'s sequence reads byte 63, so it can only
succeed on buffers of at least 64 bytes. -/
theorem get_e_shstrndx_length {buf : Buffer} {x : Nat}
    (h : get_e_shstrndx buf = some x) : 64 ≤ buf.length := by
  simp only [get_e_shstrndx, readU8, E_SHSTRNDX_START_BYTE, E_SHNUM_START_BYTE,
    E_SHENTSIZE_START_BYTE, E_PHNUM_START_BYTE, E_PHENTSIZE_START_BYTE,
    E_EHSIZE_START_BYTE, E_FLAGS_START_BYTE, E_SHOFF_START_BYTE,
    E_PHOFF_START_BYTE, E_ENTRY_START_BYTE, E_VERSION_START_BYTE,
    E_MACHINE_START_BYTE, E_TYPE_START_BYTE, E_SHNUM_SIZE_BYTE,
    E_SHENTSIZE_SIZE_BYTE, E_PHNUM_SIZE_BYTE, E_PHENTSIZE_SIZE_BYTE,
    E_EHSIZE_SIZE_BYTE, E_FLAGS_SIZE_BYTE, E_SHOFF_SIZE_BYTE, E_PHOFF_SIZE_BYTE,
    E_ENTRY_SIZE_BYTE, E_VERSION_SIZE_BYTE, E_MACHINE_SIZE_BYTE,
    E_TYPE_SIZE_BYTE, ELF64_HALF_SIZE, ELF64_WORD_SIZE, ELF64_ADDR_SIZE,
    ELF64_OFF_SIZE, Nat.reduceAdd, Option.pure_def, Option.bind_eq_bind,
    Option.bind_eq_some, Option.map_eq_some', Option.some.injEq] at h
  obtain ⟨b1, ⟨y1, hy1, hv1⟩, hrest⟩ := h
  have h63 := (List.get?_eq_some.mp hy1).1
  omega

/-- A successful pass through all sixteen getters needs all 64 header
bytes. -/
theorem decodeFields_length {buf : Buffer} {hd : DecodedHeader}
    (h : decodeFields buf = some hd) : 64 ≤ buf.length := by
  unfold decodeFields at h
  split at h
  · exact get_e_shstrndx_length (by assumption)
  · exact Option.noConfusion h

/-- C2 amended: a buffer shorter than 64 bytes never decodes to a header —
the run either drops it at the signature check (when the first 4 bytes are
not the magic) or panics on an out-of-bounds byte index; the code has no
`Truncated` error value and no length check, but it also never silently
returns a header built from out-of-range reads. -/
theorem C2_short_buffer_never_yields_header (buf : Buffer) (h : buf.length < 64) :
    decodeFile buf = DecodeOutcome.panic ∨ decodeFile buf = DecodeOutcome.notElf := by
  unfold decodeFile
  rcases he : is_elf buf with _ | b
  · exact Or.inl rfl
  · cases b
    · exact Or.inr rfl
    · rcases hf : decodeFields buf with _ | hd
      · exact Or.inl rfl
      · exact absurd (decodeFields_length hf) (by omega)

/-- A 10-byte buffer that begins with the ELF magic. -/
def c2Buf : Buffer := [0x7f, 0x45, 0x4c, 0x46, 2, 1, 1, 0, 0, 0]

/-- C2 counterexample: decoding this 10-byte magic-prefixed buffer hits an
out-of-bounds byte index — a Rust panic — rather than producing any
`DecodeError::Truncated` value (no such error exists in the code). -/
theorem C2_counterexample :
    c2Buf.length < 64 ∧ decodeFile c2Buf = DecodeOutcome.panic := by decide

/-- C2 witness: a 20-byte zero buffer is short, and decoding it panics or
drops it at the signature check. -/
theorem C2_short_buffer_never_yields_header_witness :
    (List.replicate 20 (0 : Byte)).length < 64 ∧
      (decodeFile (List.replicate 20 (0 : Byte)) = DecodeOutcome.panic ∨
        decodeFile (List.replicate 20 (0 : Byte)) = DecodeOutcome.notElf) :=
  ⟨by decide, C2_short_buffer_never_yields_header _ (by decide)⟩

/-! ### C3: batch processing and panics -/

/-- The `args.retain` pass of `main` over the batch: each element is
`some bytes` for a readable file and `none` for an unreadable one. An
unreadable file hits `panic!("Error")` — the whole pass returns `none` — and
a readable one is kept exactly when `is_elf` holds (whose own index panic,
on files shorter than 4 bytes, also aborts). -/
def retainElf : List (Option Buffer) → Option (List Buffer)
  | [] => some []
  | none :: _ => none
  | some buf :: rest =>
    match is_elf buf, retainElf rest with
    | some b, some tail => some (if b then buf :: tail else tail)
    | _, _ => none

/-- A readable, well-formed 64-byte ELF file. -/
def c3GoodElf : Buffer := HEADER_MAGIC ++ List.replicate 60 (0 : Byte)

/-- A readable file that is not an ELF file. -/
def c3NonElf : Buffer := List.replicate 10 (0 : Byte)

/-- C3 counterexample: a batch of two files in which the second is
unreadable panics (`panic!("Error")`) and aborts the whole process — the
first, perfectly good ELF file is never reported. -/
theorem C3_counterexample : retainElf [some c3GoodElf, none] = none := by decide

/-- C3 amended: when every input file is readable and at least 4 bytes
long, the retain pass completes over all N files without aborting, keeping
exactly those with the ELF magic (the rest are the ones `main` then reports
as "not an ELF file"); an unreadable input (or a readable one shorter than
4 bytes) panics and aborts the whole run. -/
theorem C3_readable_batch_attempts_all (files : List Buffer)
    (h : ∀ b ∈ files, 4 ≤ b.length) :
    retainElf (files.map some) =
      some (files.filter fun b => decide (b.take 4 = HEADER_MAGIC)) := by
  induction files with
  | nil => rfl
  | cons b rest ih =>
    have hb : 4 ≤ b.length := h b (by simp)
    have hrest : ∀ x ∈ rest, 4 ≤ x.length := fun x hx => h x (by simp [hx])
    simp only [List.map_cons, retainElf, List.filter_cons, ih hrest]
    unfold is_elf
    rw [if_pos hb]

/-- C3 witness: a two-file readable batch — one ELF, one not — is fully
classified, keeping only the ELF file. -/
theorem C3_readable_batch_attempts_all_witness :
    retainElf ([c3GoodElf, c3NonElf].map some) =
      some ([c3GoodElf, c3NonElf].filter fun b => decide (b.take 4 = HEADER_MAGIC)) :=
  C3_readable_batch_attempts_all _ (by decide)

/-! ### C7: one slot per file in the result table -/

/-- The per-file pushes of `main` into `results` for the `E_MACHINE` key:
a value is pushed only when the machine lookup succeeded (`if let Some`). -/
def machineRow : List Buffer → Option (List String)
  | [] => some []
  | buf :: rest =>
    match get_e_machine buf, machineRow rest with
    | some m, some tail =>
      some (match m with
        | some s => s :: tail
        | none => tail)
    | _, _ => none

/-- The per-file pushes of `main` into `results` for the `EI_CLASS` key:
one value per file, unconditionally. -/
def classRow : List Buffer → Option (List String)
  | [] => some []
  | buf :: rest =>
    match get_ei_class buf, classRow rest with
    | some c, some tail => some (c :: tail)
    | _, _ => none

/-- A 64-byte ELF file whose machine code `FF FF` is outside the catalog. -/
def c7BufA : Buffer :=
  [0x7f, 0x45, 0x4c, 0x46, 2, 1, 1, 0, 0, 0, 0, 0, 0, 0, 0, 0,
   2, 0, 0xff, 0xff, 1, 0, 0, 0, 0, 0, 0, 0, 0, 0, 0, 0,
   0, 0, 0, 0, 0, 0, 0, 0, 0, 0, 0, 0, 0, 0, 0, 0,
   0, 0, 0, 0, 0, 0, 0, 0, 0, 0, 0, 0, 0, 0, 0, 0]

/-- A 64-byte ELF file whose machine code `3E 00` (62) is the AMD64 entry. -/
def c7BufB : Buffer :=
  [0x7f, 0x45, 0x4c, 0x46, 2, 1, 1, 0, 0, 0, 0, 0, 0, 0, 0, 0,
   2, 0, 0x3e, 0, 1, 0, 0, 0, 0, 0, 0, 0, 0, 0, 0, 0,
   0, 0, 0, 0, 0, 0, 0, 0, 0, 0, 0, 0, 0, 0, 0, 0,
   0, 0, 0, 0, 0, 0, 0, 0, 0, 0, 0, 0, 0, 0, 0, 0]

/-- C7: both files decode successfully, so the class row holds two slots,
but the machine row holds a single slot — the sole entry, which belongs to
the second file, will be printed in the first file's column: the machine
row does not keep one slot per successfully decoded file. -/
theorem C7_machine_row_misaligned :
    (decodeFields c7BufA).isSome = true ∧
    (decodeFields c7BufB).isSome = true ∧
    classRow [c7BufA, c7BufB] = some ["64bit architecture", "64bit architecture"] ∧
    machineRow [c7BufA, c7BufB] = some ["AMD64"] := by decide

/-! ### C10: the hex renderer panics on values of 2^31 and above -/

/-- Models `string.parse::<i32>()` applied to the decimal rendering
`value.to_string()` of a decoded unsigned value: Rust parses a nonnegative
decimal string as `i32` exactly when the value is at most
`i32::MAX = 2147483647`. -/
def parse_i32_decimal (v : Nat) : Option Int :=
  if v ≤ 2147483647 then some (Int.ofNat v) else none

/-- One cell of `display_elem` with `hex == true`: format the parsed value
as `{:#x}` on success, `panic!("Illegal instruction")` (`none`) when the
decimal string does not parse as an `i32`. -/
def display_hex_cell (v : Nat) : Option String :=
  match parse_i32_decimal v with
  | some i => some ("0x" ++ String.mk (Nat.toDigits 16 i.toNat))
  | none => none

/-- A 64-byte ELF file whose entry-point field holds 2^31. -/
def c10Buf : Buffer :=
  [0x7f, 0x45, 0x4c, 0x46, 2, 1, 1, 0, 0, 0, 0, 0, 0, 0, 0, 0,
   2, 0, 0x3e, 0, 1, 0, 0, 0, 0, 0, 0, 0x80, 0, 0, 0, 0,
   0, 0, 0, 0, 0, 0, 0, 0, 0, 0, 0, 0, 0, 0, 0, 0,
   0, 0, 0, 0, 0, 0, 0, 0, 0, 0, 0, 0, 0, 0, 0, 0]

/-- C10: every hex-rendered value of at least 2^31 fails the `i32` parse
and panics with "Illegal instruction", aborting the whole run — and such
values are reachable: this concrete header decodes its entry point to
2^31. -/
theorem C10_hex_render_panics_on_large_values (v : Nat) (h : 2 ^ 31 ≤ v) :
    display_hex_cell v = none ∧ get_e_entry c10Buf = some (2 ^ 31) := by
  constructor
  · unfold display_hex_cell parse_i32_decimal
    rw [if_neg (by omega)]
  · decide

/-- C10 witness: the cell for the decoded value 2^31 panics. -/
theorem C10_hex_render_panics_on_large_values_witness :
    display_hex_cell 2147483648 = none :=
  (C10_hex_render_panics_on_large_values 2147483648 (by norm_num)).1

/-! ### C6: encode/decode round trip -/

/-- A header whose program-header offset is 2^32 — representable in the
declared unsigned 64-bit field. -/
def c6Hdr : DecodedHeader :=
  ⟨"64bit architecture", "Little endian", 1, "Executable file", some "AMD64",
   1, 4096, 4294967296, 64, 0, 64, 56, 2, 64, 3, 2⟩

/-- C6 counterexample: encoding `c6Hdr` per the declared layout and decoding
the resulting 64-byte buffer does not reproduce it — the decoder reads back
a program-header offset of 0, because it reconstructs only the four low
bytes of the eight-byte field. -/
theorem C6_counterexample :
    (encodeHeader c6Hdr).map decodeFile ≠ some (DecodeOutcome.ok c6Hdr) := by
  decide

/-- C6 amended: the round trip does hold for every encodable header whose
`version`, `entryPoint`, `programHeaderOffset` and `sectionHeaderOffset`
values are below 2^32 (together with the bounds the declared field types
already impose: an 8-bit header version, 32-bit flags and 16-bit size/count
fields): decoding the encoded buffer reproduces the header exactly. -/
theorem C6_roundtrip_below_two_pow_32 (h : DecodedHeader) (buf : Buffer)
    (he : encodeHeader h = some buf) (hv : h.ei_version < 256)
    (h1 : h.e_version < 2 ^ 32) (h2 : h.e_entry < 2 ^ 32) (h3 : h.e_phoff < 2 ^ 32)
    (h4 : h.e_shoff < 2 ^ 32) (h5 : h.e_flags < 2 ^ 32) (h6 : h.e_ehsize < 2 ^ 16)
    (h7 : h.e_phentsize < 2 ^ 16) (h8 : h.e_phnum < 2 ^ 16)
    (h9 : h.e_shentsize < 2 ^ 16) (h10 : h.e_shnum < 2 ^ 16)
    (h11 : h.e_shstrndx < 2 ^ 16) :
    decodeFile buf = DecodeOutcome.ok h := by
  simp only [encodeHeader, Option.pure_def, Option.bind_eq_bind,
    Option.bind_eq_some, Option.some.injEq] at he
  obtain ⟨cls, hcls, dat, hdat, typ, htyp, mach, hmach, hbuf⟩ := he
  subst hbuf
  unfold decodeFile
  rw [is_elf_canonical, decodeFields_canonical _ _ _ _ _ _ _ _ _ _ _ _ _ _ _ _
    (typeCode_inv htyp).2 (machCode_inv hmach).2 h1 h2 h3 h4 h5 h6 h7 h8 h9 h10 h11,
    classCode_inv hcls, dataCode_inv hdat, Nat.mod_eq_of_lt hv,
    (typeCode_inv htyp).1, (machCode_inv hmach).1]

/-- The header of `c6Hdr` with its program-header offset lowered to 64. -/
def c6HdrOk : DecodedHeader :=
  ⟨"64bit architecture", "Little endian", 1, "Executable file", some "AMD64",
   1, 4096, 64, 64, 0, 64, 56, 2, 64, 3, 2⟩

/-- C6 witness: the concrete header `c6HdrOk` survives the round trip. -/
theorem C6_roundtrip_below_two_pow_32_witness :
    decodeFile (canonicalBuf 2 1 1 2 62 1 4096 64 64 0 64 56 2 64 3 2) =
      DecodeOutcome.ok c6HdrOk :=
  C6_roundtrip_below_two_pow_32 c6HdrOk _ (by decide) (by decide) (by decide)
    (by decide) (by decide) (by decide) (by decide) (by decide) (by decide)
    (by decide) (by decide) (by decide) (by decide)
